import Mathlib

/-!
Shallow embedding of the license-plate recognition service
(src/plate_recognition_project): the YOLO detection adapter
(PlateProcessor/yolo_detector.py), the OCR adapter
(TextExtraction/ocr_reader.py), the recognition pipeline
(core/workflow.py) and the HTTP handler (src/app.py), together with
theorems settling the behavioural claims about them.

Third-party models (ultralytics YOLO, fast-plate-ocr) and cv2 are
out-of-scope black boxes; they are represented by explicit oracle
functions and by their documented contracts.
-/

namespace PlateRec

/-- Python exception kinds distinguished by the embedded code paths.
Oracle errors stand for raised instances of Exception subclasses
(SystemExit is raised only by the explicit `raise SystemExit` in
workflow.process and, notably, is not a subclass of Exception, so a
bare `except Exception` does not catch it). -/
inductive PyExc where
  | typeError
  | systemExit
  | indexError
  | cvError
  | other
deriving DecidableEq

/-- Raw OCR output of fast_plate_ocr LicensePlateRecognizer.run: either a
plain string or a list/tuple of strings (app.py handles both shapes). -/
inductive PyText where
  | str (s : String)
  | list (parts : List String)
deriving DecidableEq

/-- Python truthiness of an OCR text value: empty string and empty list
are falsy. -/
def pyTruthy : PyText → Bool
  | PyText.str s => !(s == "")
  | PyText.list l => !l.isEmpty

/-- Confidence value as passed around by the pipeline: the dead branch of
workflow.process would return the scalar 0.0, while the live success path
returns boxes[0].conf, which Box.__init__ stores as a one-element list. -/
inductive PyConf where
  | scalar (c : ℚ)
  | list (l : List ℚ)
deriving DecidableEq

/-- A BGR image array, abstracted to its numpy shape (height, width,
channels). Pixel contents are irrelevant to every claim. -/
structure Image where
  height : ℕ
  width : ℕ
  channels : ℕ
deriving DecidableEq

/-- numpy ndarray.size: the product of the dimensions. -/
def Image.size (img : Image) : ℕ := img.height * img.width * img.channels

/-- Python int() applied to a real number truncates toward zero: the floor
for nonnegative arguments and the ceiling, written as -floor(-q), for
negative ones. -/
def pyInt (q : ℚ) : ℤ := if 0 ≤ q then Rat.floor q else -(Rat.floor (-q))

/-- Normalisation of one bound of a numpy basic slice a[start:stop] along an
axis of length n (step 1): negative indices count from the end, and bounds
are clamped into [0, n]. -/
def npSliceBound (i : ℤ) (n : ℕ) : ℕ := if i < 0 then (i + n).toNat else min i.toNat n

/-- Length of the numpy basic slice a[start:stop] along an axis of length n. -/
def npSliceLen (start stop : ℤ) (n : ℕ) : ℕ := npSliceBound stop n - npSliceBound start n

/-- YOLODetector.crop_plate: `image[y1:y2, x1:x2]` after `map(int, box)`;
the box is (x1, y1, x2, y2). -/
def crop_plate (image : Image) (box : ℤ × ℤ × ℤ × ℤ) : Image :=
  { height := npSliceLen box.2.1 box.2.2.2 image.height
    width := npSliceLen box.1 box.2.2.1 image.width
    channels := image.channels }

/-- Contract of cv2.resize(src, dsize) for non-degenerate arguments: the
output has exactly the requested (width, height). The degenerate cases in
which cv2.resize raises cv2.error (empty source, zero dsize) are handled
at the call site in detect_plate_yolo. -/
def cv2resize (img : Image) (dsize : ℕ × ℕ) : Image :=
  { height := dsize.2, width := dsize.1, channels := img.channels }

/-- Box.__init__ of yolo_detector.py: xyxy is reshaped to one row of four
coordinates, cls and conf are each wrapped in a one-element list. -/
structure Box where
  xyxy : ℚ × ℚ × ℚ × ℚ
  cls : List ℤ
  conf : List ℚ
deriving DecidableEq

/-- Construction of a Box from one row of the raw model output, as done in
the loop of YOLODetector.detect_plate. -/
def Box.ofDet (xyxy : ℚ × ℚ × ℚ × ℚ) (cls : ℤ) (conf : ℚ) : Box :=
  { xyxy := xyxy, cls := [cls], conf := [conf] }

/-- One raw inference result r of the YOLO model: the arrays
r.boxes.xyxy, r.boxes.cls, r.boxes.conf. -/
structure RawDet where
  xyxy : List (ℚ × ℚ × ℚ × ℚ)
  cls : List ℤ
  conf : List ℚ

/-- YOLODetector.detect_plate: converts the raw model results into Boxes by
zipping the three arrays (Python zip truncates to the shortest). The class
filter is applied inside the model call itself (classes=[plate_class_id]),
i.e. inside the inference oracle. -/
def detect_plate (results : List RawDet) : List Box :=
  results.flatMap (fun r =>
    (r.xyxy.zip (r.cls.zip r.conf)).map (fun t => Box.ofDet t.1 t.2.1 t.2.2))

/-- Oracles for the pieces of detect_plate_yolo that call the outside
world: os.path.exists, YOLODetector construction for a weights path (which
may raise), and model inference for that path (which may raise). -/
structure YoloEnv where
  pathExists : String → Bool
  construct : String → Except PyExc Unit
  infer : String → Image → Except PyExc (List RawDet)

/-- Box-expansion-and-clamp arithmetic of detect_plate_yolo (lines
135-140): grow the first box by expand_ratio of its side lengths on each
side, truncate with int(), clamp into [0, w] and [0, h]. Returns
(x1_new, y1_new, x2_new, y2_new). -/
def expandClamp (x1 y1 x2 y2 : ℚ) (ratio : ℚ) (w h : ℕ) : ℤ × ℤ × ℤ × ℤ :=
  let dx := (x2 - x1) * ratio
  let dy := (y2 - y1) * ratio
  (max 0 (pyInt (x1 - dx)), max 0 (pyInt (y1 - dy)),
   min (w : ℤ) (pyInt (x2 + dx)), min (h : ℤ) (pyInt (y2 + dy)))

/-- YOLODetector.detect_plate_yolo. The whole body is wrapped in
try/except Exception, so a missing weights file, zero detected boxes, a
raising constructor or model call, and the cv2.error raised by
cv2.resize on an empty crop or zero output size all yield None. On
success it returns the pair (resized crop, boxes[0].conf). -/
def detect_plate_yolo (env : YoloEnv) (image : Image) (model_path : String)
    (expand_ratio : ℚ) (output_size : ℕ × ℕ) : Option (Image × List ℚ) :=
  if env.pathExists model_path = true then
    match env.construct model_path with
    | Except.error _ => none
    | Except.ok _ =>
      match env.infer model_path image with
      | Except.error _ => none
      | Except.ok results =>
        match detect_plate results with
        | [] => none
        | b :: _ =>
          let q := expandClamp b.xyxy.1 b.xyxy.2.1 b.xyxy.2.2.1 b.xyxy.2.2.2
            expand_ratio image.width image.height
          let cropped := crop_plate image q
          if cropped.size = 0 ∨ output_size.1 = 0 ∨ output_size.2 = 0 then none
          else some (cv2resize cropped output_size, b.conf)
  else none

/-- OCRReader.extract_text: None for a missing or empty image, a raising
model, or falsy recognized text; otherwise (text, 100.0). The internal
`confidence = 100.0 if text else 0.0` makes 100.0 the only confidence a
returned tuple can carry. -/
def extract_text (ocrRun : Image → Except PyExc PyText) (img : Option Image) :
    Option (PyText × ℚ) :=
  match img with
  | none => none
  | some i =>
    if i.size = 0 then none
    else
      match ocrRun i with
      | Except.error _ => none
      | Except.ok text => if pyTruthy text = true then some (text, 100) else none

/-- config/settings.py: YOLO_EXPAND_RATIO = 0.001. -/
def YOLO_EXPAND_RATIO : ℚ := 1/1000

/-- config/settings.py: YOLO_OUTPUT_SIZE = (512, 256), as (width, height). -/
def YOLO_OUTPUT_SIZE : ℕ × ℕ := (512, 256)

/-- Outcome of one call of PlateRecognizer.process: an uncaught exception,
a bare `return None`, or a returned pair (text, confidence). -/
inductive ProcResult where
  | raises (e : PyExc)
  | retNone
  | ok (text : PyText) (conf : PyConf)
deriving DecidableEq

/-- PlateRecognizer.process (core/workflow.py, DEBUG=False). An invalid or
empty image raises SystemExit. The statement
`cropped_plate, confidence = YOLODetector.detect_plate_yolo(...)` unpacks
the callee's result, so when that result is None the unpacking itself
raises TypeError (cannot unpack non-iterable NoneType); consequently the
`return "No text detected.", 0.0` branch, guarded by
`cropped_plate is not None` on an already unpacked ndarray, is
unreachable. On a successful OCR the pair (text, confidence) is returned
with confidence the detector's boxes[0].conf list, discarding the OCR
confidence. -/
def process (env : YoloEnv) (ocrRun : Image → Except PyExc PyText)
    (model_path : String) (image : Option Image) : ProcResult :=
  match image with
  | none => ProcResult.raises PyExc.systemExit
  | some img =>
    if img.size = 0 then ProcResult.raises PyExc.systemExit
    else
      match detect_plate_yolo env img model_path YOLO_EXPAND_RATIO YOLO_OUTPUT_SIZE with
      | none => ProcResult.raises PyExc.typeError
      | some (crop, conf) =>
        match extract_text ocrRun (some crop) with
        | some (text, _c) => ProcResult.ok text (PyConf.list conf)
        | none => ProcResult.retNone

/-- Python str.replace with a single-character pattern, acting on the
character list of the string: each occurrence of c is replaced by the
replacement characters (possibly none). -/
def pyReplaceChar (c : Char) (r : List Char) (s : List Char) : List Char :=
  s.flatMap (fun a => if a = c then r else [a])

/-- The literal replace chain of PlateAPI._normalize_text applied to the
characters of the raw string, in source order:
replace("_","") ... replace(" ","") ... replace("O","0") ...
replace("o","0") ... replace("i","1") ... replace("I","1"). -/
def normChars (s : List Char) : List Char :=
  pyReplaceChar 'I' ['1']
    (pyReplaceChar 'i' ['1']
      (pyReplaceChar 'o' ['0']
        (pyReplaceChar 'O' ['0']
          (pyReplaceChar ' ' []
            (pyReplaceChar '_' [] s)))))

/-- str("".join(str(part) for part in parts)) for a list of strings. -/
def pyJoin (parts : List String) : String := String.join parts

/-- PlateAPI._normalize_text: a list/tuple input is joined, anything else
is taken as its string form, and then the replace chain is applied. -/
def _normalize_text (text : PyText) : String :=
  let raw := match text with
    | PyText.list parts => pyJoin parts
    | PyText.str s => s
  String.mk (normChars raw.data)

/-- The JSON body and status code of a response of PlateAPI.recognize.
A field that the handler does not put into the dictionary is `none`. -/
structure JsonResponse where
  status : ℕ
  success : Bool
  plateFound : Option Bool
  licenseNumber : Option String
  confidence : Option ℚ
  error : Option String
deriving DecidableEq

/-- jsonify({"success": False, "error": msg}), 400. -/
def resp400 (msg : String) : JsonResponse :=
  { status := 400, success := false, plateFound := none, licenseNumber := none,
    confidence := none, error := some msg }

/-- jsonify({"success": False, "error": "internal_error"}), 500. -/
def resp500 : JsonResponse :=
  { status := 500, success := false, plateFound := none, licenseNumber := none,
    confidence := none, error := some ("internal_error") }

/-- jsonify({"success": True, "plateFound": False}), 200. -/
def respNoPlate : JsonResponse :=
  { status := 200, success := true, plateFound := some false, licenseNumber := none,
    confidence := none, error := none }

/-- jsonify({"success": True, "plateFound": True, "licenseNumber": t,
"confidence": float(c)}), 200. -/
def respFound (t : String) (c : ℚ) : JsonResponse :=
  { status := 200, success := true, plateFound := some true, licenseNumber := some t,
    confidence := some c, error := none }

/-- Outcome of one request: either a JSON response or an exception escaping
the handler (only SystemExit can, since `except Exception` catches the rest). -/
inductive HttpOutcome where
  | response (r : JsonResponse)
  | uncaught (e : PyExc)
deriving DecidableEq

/-- Python `conf[0]`: indexing succeeds only on a non-empty list; on a float
it raises TypeError and on an empty list IndexError. -/
def pyIndex0 : PyConf → Except PyExc ℚ
  | PyConf.scalar _ => Except.error PyExc.typeError
  | PyConf.list [] => Except.error PyExc.indexError
  | PyConf.list (c :: _) => Except.ok c

/-- The check `isinstance(text, str) and text in ["No text detected.", "________"]`. -/
def strSentinel : PyText → Bool
  | PyText.str s => s == "No text detected." || s == "________"
  | PyText.list _ => false

/-- The check `isinstance(text, (list, tuple))` followed by joining and
comparing against the underscore placeholder. -/
def joinedSentinel : PyText → Bool
  | PyText.list l => pyJoin l == "________"
  | PyText.str _ => false

/-- PlateAPI.recognize (src/app.py). The upload argument encodes the two
decoding stages: `none` is a missing/falsy image field, `some none` an
image cv2.imdecode cannot decode, and `some (some img)` a decoded image.
After the pipeline call the handler runs `confidence = conf[0]` before any
text check, and a pipeline result that is the bare None returned on OCR
failure already fails the tuple unpacking `text, conf = ...` with
TypeError, which the blanket except turns into the 500 response. -/
def recognize (env : YoloEnv) (ocrRun : Image → Except PyExc PyText)
    (model_path : String) (upload : Option (Option Image)) : HttpOutcome :=
  match upload with
  | none => HttpOutcome.response (resp400 ("No image uploaded"))
  | some none => HttpOutcome.response (resp400 ("Invalid image format"))
  | some (some img) =>
    match process env ocrRun model_path (some img) with
    | ProcResult.raises PyExc.systemExit => HttpOutcome.uncaught PyExc.systemExit
    | ProcResult.raises _ => HttpOutcome.response resp500
    | ProcResult.retNone => HttpOutcome.response resp500
    | ProcResult.ok text conf =>
      match pyIndex0 conf with
      | Except.error _ => HttpOutcome.response resp500
      | Except.ok c =>
        if pyTruthy text = false then HttpOutcome.response respNoPlate
        else if strSentinel text = true then HttpOutcome.response respNoPlate
        else if joinedSentinel text = true then HttpOutcome.response respNoPlate
        else
          let clean := _normalize_text text
          if clean = "" then HttpOutcome.response respNoPlate
          else HttpOutcome.response (respFound clean c)

/-! Concrete fixtures used by the closed theorems and the witnesses. -/

/-- A 10 x 10 BGR test image. -/
def img10 : Image := { height := 10, width := 10, channels := 3 }

/-- One raw detection: box (1, 1, 6, 5), class 0, confidence 0.9. -/
def rawOne : RawDet := { xyxy := [(1, 1, 6, 5)], cls := [0], conf := [9/10] }

/-- The Box that detect_plate builds from rawOne. -/
def boxOne : Box := Box.ofDet (1, 1, 6, 5) 0 (9/10)

/-- Oracles: weights present, construction succeeds, one detection. -/
def envOne : YoloEnv :=
  { pathExists := fun _ => true, construct := fun _ => Except.ok (),
    infer := fun _ _ => Except.ok [rawOne] }

/-- Oracles: weights present, construction succeeds, zero detections. -/
def envZero : YoloEnv :=
  { pathExists := fun _ => true, construct := fun _ => Except.ok (),
    infer := fun _ _ => Except.ok [] }

/-- Oracles: the weights file does not exist. -/
def envMissing : YoloEnv :=
  { pathExists := fun _ => false, construct := fun _ => Except.ok (),
    infer := fun _ _ => Except.ok [] }

/-- Oracles: model construction raises. -/
def envBoom : YoloEnv :=
  { pathExists := fun _ => true, construct := fun _ => Except.error PyExc.other,
    infer := fun _ _ => Except.ok [] }

/-- OCR oracle recognizing the text AB12. -/
def ocrAB : Image → Except PyExc PyText := fun _ => Except.ok (PyText.str ("AB12"))

/-- OCR oracle recognizing the empty string (falsy text). -/
def ocrEmpty : Image → Except PyExc PyText := fun _ => Except.ok (PyText.str (""))

/-- OCR oracle recognizing the underscore placeholder string. -/
def ocrUnd : Image → Except PyExc PyText := fun _ => Except.ok (PyText.str ("________"))

/-- Pointwise action of the whole replace chain on one character. -/
def normChar1 (a : Char) : List Char :=
  if a = '_' then [] else if a = ' ' then []
  else if a = 'O' then ['0'] else if a = 'o' then ['0']
  else if a = 'i' then ['1'] else if a = 'I' then ['1'] else [a]

/-- The exact no-result condition of OCRReader.extract_text: missing image,
empty image, raising model, or falsy recognized text. -/
def ocrNoResult (ocrRun : Image → Except PyExc PyText) (img : Option Image) : Prop :=
  match img with
  | none => True
  | some i =>
    i.size = 0 ∨
      (match ocrRun i with
       | Except.error _ => True
       | Except.ok t => pyTruthy t = false)

unseal Rat.mul Rat.add Rat.sub Rat.inv

/-! Helper lemmas about the Python int() truncation. -/

lemma pyInt_eq_floor (q : ℚ) : pyInt q = if 0 ≤ q then Int.floor q else -(Int.floor (-q)) :=
  rfl

lemma pyInt_mono {a b : ℚ} (h : a ≤ b) : pyInt a ≤ pyInt b := by
  by_cases ha : 0 ≤ a <;> by_cases hb : 0 ≤ b
  · rw [pyInt_eq_floor, pyInt_eq_floor, if_pos ha, if_pos hb]
    exact Int.floor_mono h
  · exact absurd (ha.trans h) hb
  · rw [pyInt_eq_floor, pyInt_eq_floor, if_neg ha, if_pos hb]
    have h1 : (0 : ℤ) ≤ Int.floor (-a) := Int.floor_nonneg.mpr (by linarith [lt_of_not_le ha])
    have h2 : (0 : ℤ) ≤ Int.floor b := Int.floor_nonneg.mpr hb
    omega
  · rw [pyInt_eq_floor, pyInt_eq_floor, if_neg ha, if_neg hb]
    have := Int.floor_mono (neg_le_neg h)
    omega

lemma pyInt_nonneg {q : ℚ} (h : 0 ≤ q) : 0 ≤ pyInt q := by
  rw [pyInt_eq_floor, if_pos h]
  exact Int.floor_nonneg.mpr h

lemma pyInt_natCast (n : ℕ) : pyInt (n : ℚ) = n := by
  rw [pyInt_eq_floor, if_pos (by positivity)]
  exact Int.floor_natCast n

/-- C7. For every detected box lying inside the image (coordinates in
pixel space with x1 ≤ x2 in [0, w] and y1 ≤ y2 in [0, h], the detector's
contract) and every nonnegative expansion ratio, the expanded-then-clamped
box computed by detect_plate_yolo stays inside [0, w] x [0, h]:
0 ≤ x1_new ≤ x2_new ≤ w and 0 ≤ y1_new ≤ y2_new ≤ h. -/
theorem expandClamp_within_bounds (x1 y1 x2 y2 ratio : ℚ) (w h : ℕ)
    (hx0 : 0 ≤ x1) (hx12 : x1 ≤ x2) (hx2w : x2 ≤ (w : ℚ))
    (hy0 : 0 ≤ y1) (hy12 : y1 ≤ y2) (hy2h : y2 ≤ (h : ℚ))
    (hr : 0 ≤ ratio) :
    0 ≤ (expandClamp x1 y1 x2 y2 ratio w h).1 ∧
    (expandClamp x1 y1 x2 y2 ratio w h).1 ≤ (expandClamp x1 y1 x2 y2 ratio w h).2.2.1 ∧
    (expandClamp x1 y1 x2 y2 ratio w h).2.2.1 ≤ (w : ℤ) ∧
    0 ≤ (expandClamp x1 y1 x2 y2 ratio w h).2.1 ∧
    (expandClamp x1 y1 x2 y2 ratio w h).2.1 ≤ (expandClamp x1 y1 x2 y2 ratio w h).2.2.2 ∧
    (expandClamp x1 y1 x2 y2 ratio w h).2.2.2 ≤ (h : ℤ) := by
  have hdx : 0 ≤ (x2 - x1) * ratio := mul_nonneg (by linarith) hr
  have hdy : 0 ≤ (y2 - y1) * ratio := mul_nonneg (by linarith) hr
  simp only [expandClamp]
  refine ⟨le_max_left 0 _, ?_, min_le_left _ _, le_max_left 0 _, ?_, min_le_left _ _⟩
  · refine max_le (le_min (by positivity) (pyInt_nonneg (by linarith)))
      (le_min ?_ (pyInt_mono (by linarith)))
    calc pyInt (x1 - (x2 - x1) * ratio) ≤ pyInt ((w : ℕ) : ℚ) := pyInt_mono (by linarith)
    _ = (w : ℤ) := pyInt_natCast w
  · refine max_le (le_min (by positivity) (pyInt_nonneg (by linarith)))
      (le_min ?_ (pyInt_mono (by linarith)))
    calc pyInt (y1 - (y2 - y1) * ratio) ≤ pyInt ((h : ℕ) : ℚ) := pyInt_mono (by linarith)
    _ = (h : ℤ) := pyInt_natCast h

/-- Witness for C7 at the concrete box (1, 1, 6, 5) in a 10 x 10 image
with the repository's expansion ratio 0.001. -/
theorem expandClamp_within_bounds_w :
    0 ≤ (expandClamp 1 1 6 5 (1/1000) 10 10).1 ∧
    (expandClamp 1 1 6 5 (1/1000) 10 10).1 ≤ (expandClamp 1 1 6 5 (1/1000) 10 10).2.2.1 ∧
    (expandClamp 1 1 6 5 (1/1000) 10 10).2.2.1 ≤ ((10 : ℕ) : ℤ) ∧
    0 ≤ (expandClamp 1 1 6 5 (1/1000) 10 10).2.1 ∧
    (expandClamp 1 1 6 5 (1/1000) 10 10).2.1 ≤ (expandClamp 1 1 6 5 (1/1000) 10 10).2.2.2 ∧
    (expandClamp 1 1 6 5 (1/1000) 10 10).2.2.2 ≤ ((10 : ℕ) : ℤ) :=
  expandClamp_within_bounds 1 1 6 5 (1/1000) 10 10 (by norm_num) (by norm_num)
    (by norm_num) (by norm_num) (by norm_num) (by norm_num) (by norm_num)

/-! Helper lemmas about the normalization replace chain. -/

lemma normChars_eq (s : List Char) : normChars s = s.flatMap normChar1 := by
  simp only [normChars, pyReplaceChar, List.flatMap_assoc]
  refine List.flatMap_congr fun a _ => ?_
  by_cases h1 : a = '_'
  · subst h1; rfl
  by_cases h2 : a = ' '
  · subst h2; rfl
  by_cases h3 : a = 'O'
  · subst h3; rfl
  by_cases h4 : a = 'o'
  · subst h4; rfl
  by_cases h5 : a = 'i'
  · subst h5; rfl
  by_cases h6 : a = 'I'
  · subst h6; rfl
  simp [normChar1, h1, h2, h3, h4, h5, h6]

lemma normChar1_fix (a : Char) : (normChar1 a).flatMap normChar1 = normChar1 a := by
  by_cases h1 : a = '_'
  · subst h1; rfl
  by_cases h2 : a = ' '
  · subst h2; rfl
  by_cases h3 : a = 'O'
  · subst h3; rfl
  by_cases h4 : a = 'o'
  · subst h4; rfl
  by_cases h5 : a = 'i'
  · subst h5; rfl
  by_cases h6 : a = 'I'
  · subst h6; rfl
  simp [normChar1, h1, h2, h3, h4, h5, h6]

lemma normChars_idem (s : List Char) : normChars (normChars s) = normChars s := by
  rw [normChars_eq s, normChars_eq, List.flatMap_assoc]
  exact List.flatMap_congr fun a _ => normChar1_fix a

/-- C5. The replace chain of _normalize_text is idempotent on every string,
and the example string normalizes to the fixed value 00111. -/
theorem normalize_text_idempotent :
    (∀ s : String,
      _normalize_text (PyText.str (_normalize_text (PyText.str s))) =
        _normalize_text (PyText.str s)) ∧
    _normalize_text (PyText.str ("O0I1_ i")) = "00111" := by
  constructor
  · intro s
    show String.mk (normChars (normChars s.data)) = String.mk (normChars s.data)
    exact congrArg String.mk (normChars_idem s.data)
  · decide

/-- C6. extract_text returns None exactly on a missing or empty image, a
raising model, or empty (falsy) recognized text; any returned pair carries
truthy text and the fixed sentinel confidence 100. -/
theorem extract_text_spec (ocrRun : Image → Except PyExc PyText) (img : Option Image) :
    (extract_text ocrRun img = none ↔ ocrNoResult ocrRun img) ∧
    (∀ t c, extract_text ocrRun img = some (t, c) → pyTruthy t = true ∧ c = 100) := by
  cases img with
  | none => simp [extract_text, ocrNoResult]
  | some i =>
    by_cases hz : i.size = 0
    · simp [extract_text, ocrNoResult, hz]
    · cases hr : ocrRun i with
      | error e => simp [extract_text, ocrNoResult, hz, hr]
      | ok t =>
        cases ht : pyTruthy t with
        | true =>
          constructor
          · simp [extract_text, ocrNoResult, hz, hr, ht]
          · intro t2 c2 hsome
            simp only [extract_text, hz, hr, ht, if_neg hz, if_true] at hsome
            injection hsome with h2
            injection h2 with h3 h4
            subst h3
            subst h4
            exact ⟨ht, rfl⟩
        | false =>
          have ht2 : ¬ pyTruthy t = true := by simp [ht]
          simp [extract_text, ocrNoResult, hz, hr, ht, ht2]

/-- Witness for C6 at a concrete oracle and image. -/
theorem extract_text_spec_w :
    pyTruthy (PyText.str ("AB12")) = true ∧ (100 : ℚ) = 100 :=
  (extract_text_spec ocrAB (some img10)).2 (PyText.str ("AB12")) 100 (by decide)

/-- C3. Whenever the detector step yields a crop (a box was detected and
cropped) but the OCR step yields no result, PlateRecognizer.process
returns the bare None. -/
theorem process_retNone_on_ocr_no_result (env : YoloEnv)
    (ocrRun : Image → Except PyExc PyText) (p : String) (img crop : Image) (cf : List ℚ)
    (h0 : img.size ≠ 0)
    (h1 : detect_plate_yolo env img p YOLO_EXPAND_RATIO YOLO_OUTPUT_SIZE = some (crop, cf))
    (h2 : extract_text ocrRun (some crop) = none) :
    process env ocrRun p (some img) = ProcResult.retNone := by
  simp [process, h0, h1, h2]

/-- Witness for C3: one detection, OCR recognizes the empty string. -/
theorem process_retNone_on_ocr_no_result_w :
    process envOne ocrEmpty ("best.pt") (some img10) = ProcResult.retNone :=
  process_retNone_on_ocr_no_result envOne ocrEmpty ("best.pt") img10
    ({ height := 256, width := 512, channels := 3 }) ([9/10])
    (by decide) (by decide) (by decide)

/-- C1 (the claim fails on the code). When the detector yields zero boxes,
or the weights file is absent, detect_plate_yolo returns None and the
unpacking assignment in PlateRecognizer.process raises TypeError instead
of returning the pair ("No text detected.", 0.0); that return statement is
unreachable. -/
theorem process_crashes_when_detector_finds_nothing :
    process envZero ocrAB ("best.pt") (some img10) = ProcResult.raises PyExc.typeError ∧
    process envMissing ocrAB ("best.pt") (some img10) = ProcResult.raises PyExc.typeError ∧
    ¬ process envZero ocrAB ("best.pt") (some img10) =
        ProcResult.ok (PyText.str ("No text detected.")) (PyConf.scalar 0) ∧
    ¬ process envMissing ocrAB ("best.pt") (some img10) =
        ProcResult.ok (PyText.str ("No text detected.")) (PyConf.scalar 0) := by
  decide

/-- C2 (the claim fails on the code). For a decodable image with no
detected plate the pipeline raises TypeError, and for a detected plate
with empty OCR text it returns the bare None that fails the handler's own
tuple unpacking; in both cases PlateAPI.recognize answers the 500
internal_error response rather than 200 with plateFound false. -/
theorem recognize_500_when_nothing_found :
    recognize envZero ocrAB ("best.pt") (some (some img10)) = HttpOutcome.response resp500 ∧
    recognize envOne ocrEmpty ("best.pt") (some (some img10)) = HttpOutcome.response resp500 ∧
    resp500.status = 500 ∧ resp500.success = false ∧
    ¬ recognize envZero ocrAB ("best.pt") (some (some img10)) =
        HttpOutcome.response respNoPlate ∧
    ¬ recognize envOne ocrEmpty ("best.pt") (some (some img10)) =
        HttpOutcome.response respNoPlate := by
  decide

/-- C9. detect_plate_yolo maps an exception raised by detector
construction or by inference to None, the same value produced by an empty
detection, instead of propagating it. -/
theorem detect_plate_yolo_swallows (env : YoloEnv) (img : Image) (p : String)
    (ratio : ℚ) (sz : ℕ × ℕ)
    (h : (∃ e, env.construct p = Except.error e) ∨
         (∃ e, env.infer p img = Except.error e) ∨
         (∃ rs, env.infer p img = Except.ok rs ∧ detect_plate rs = [])) :
    detect_plate_yolo env img p ratio sz = none := by
  unfold detect_plate_yolo
  by_cases hp : env.pathExists p = true
  · rw [if_pos hp]
    rcases h with ⟨e, he⟩ | ⟨e, he⟩ | ⟨rs, hrs, hdet⟩
    · rw [he]
    · cases hc : env.construct p with
      | error e2 => rfl
      | ok u => rw [he]
    · cases hc : env.construct p with
      | error e2 => rfl
      | ok u => simp [hrs, hdet]
  · rw [if_neg hp]

/-- Witness for C9: a raising constructor yields None. -/
theorem detect_plate_yolo_swallows_w :
    detect_plate_yolo envBoom img10 ("best.pt") (1/1000) ((512, 256)) = none :=
  detect_plate_yolo_swallows envBoom img10 ("best.pt") (1/1000) ((512, 256))
    (Or.inl ⟨PyExc.other, rfl⟩)

/-! Inversion helpers shared by the theorems about the success path. -/

lemma extract_text_some_conf (ocrRun : Image → Except PyExc PyText)
    (img : Option Image) (t : PyText) (c : ℚ)
    (h : extract_text ocrRun img = some (t, c)) : c = 100 ∧ pyTruthy t = true := by
  cases img with
  | none => exact Option.noConfusion h
  | some i =>
    simp only [extract_text] at h
    split at h
    · exact Option.noConfusion h
    · split at h
      · exact Option.noConfusion h
      · split at h
        · injection h with h2
          injection h2 with h3 h4
          subst h3
          subst h4
          constructor
          · rfl
          · assumption
        · exact Option.noConfusion h

lemma detect_plate_yolo_some_inv (env : YoloEnv) (img : Image) (p : String)
    (ratio : ℚ) (sz : ℕ × ℕ) (crop : Image) (cf : List ℚ)
    (h : detect_plate_yolo env img p ratio sz = some (crop, cf)) :
    ∃ rs b bs, env.infer p img = Except.ok rs ∧ detect_plate rs = b :: bs ∧
      cf = b.conf ∧
      crop = cv2resize (crop_plate img
        (expandClamp b.xyxy.1 b.xyxy.2.1 b.xyxy.2.2.1 b.xyxy.2.2.2 ratio
          img.width img.height)) sz := by
  simp only [detect_plate_yolo] at h
  split at h
  · split at h
    · exact Option.noConfusion h
    · split at h
      · exact Option.noConfusion h
      · rename_i rs heq2
        split at h
        · exact Option.noConfusion h
        · rename_i b bs heq3
          split at h
          · exact Option.noConfusion h
          · injection h with h2
            injection h2 with ha hb
            exact ⟨rs, b, bs, heq2, heq3, hb.symm, ha.symm⟩
  · exact Option.noConfusion h

lemma process_ok_inv (env : YoloEnv) (ocrRun : Image → Except PyExc PyText)
    (p : String) (img : Image) (text : PyText) (cf : PyConf)
    (hp : process env ocrRun p (some img) = ProcResult.ok text cf) :
    img.size ≠ 0 ∧ ∃ crop cfl,
      detect_plate_yolo env img p YOLO_EXPAND_RATIO YOLO_OUTPUT_SIZE = some (crop, cfl) ∧
      cf = PyConf.list cfl ∧ extract_text ocrRun (some crop) = some (text, 100) := by
  simp only [process] at hp
  split at hp
  · exact ProcResult.noConfusion hp
  · rename_i hz
    split at hp
    · exact ProcResult.noConfusion hp
    · rename_i crop cfl heq
      split at hp
      · rename_i t2 c2 heq2
        injection hp with h3 h4
        subst h3
        obtain ⟨hc, _⟩ := extract_text_some_conf ocrRun (some crop) t2 c2 heq2
        subst hc
        exact ⟨hz, crop, cfl, heq, h4.symm, heq2⟩
      · exact ProcResult.noConfusion hp

lemma detect_plate_cons_conf (rs : List RawDet) (b : Box) (bs : List Box)
    (h : detect_plate rs = b :: bs) : ∃ k, b.conf = [k] := by
  have hb : b ∈ detect_plate rs := by rw [h]; exact List.mem_cons_self b bs
  simp only [detect_plate] at hb
  rcases List.mem_flatMap.mp hb with ⟨r, _, hm⟩
  rcases List.mem_map.mp hm with ⟨t, _, hEq⟩
  refine ⟨t.2.2, ?_⟩
  rw [← hEq]
  rfl

/-- C8. Whenever detect_plate_yolo returns a crop, that crop has exactly
the configured output size (width, height); the repository configures
YOLO_OUTPUT_SIZE = (512, 256). -/
theorem detect_plate_yolo_crop_size (env : YoloEnv) (img : Image) (p : String)
    (ratio : ℚ) (sz : ℕ × ℕ) (crop : Image) (cf : List ℚ)
    (h : detect_plate_yolo env img p ratio sz = some (crop, cf)) :
    crop.width = sz.1 ∧ crop.height = sz.2 ∧ YOLO_OUTPUT_SIZE = (512, 256) := by
  obtain ⟨rs, b, bs, _, _, _, hcrop⟩ :=
    detect_plate_yolo_some_inv env img p ratio sz crop cf h
  subst hcrop
  exact ⟨rfl, rfl, rfl⟩

/-- Witness for C8: the concrete successful detection resizes the crop to
512 x 256. -/
theorem detect_plate_yolo_crop_size_w :
    ({ height := 256, width := 512, channels := 3 } : Image).width = ((512, 256) : ℕ × ℕ).1 ∧
    ({ height := 256, width := 512, channels := 3 } : Image).height = ((512, 256) : ℕ × ℕ).2 ∧
    YOLO_OUTPUT_SIZE = (512, 256) :=
  detect_plate_yolo_crop_size envOne img10 ("best.pt") (1/1000) ((512, 256))
    ({ height := 256, width := 512, channels := 3 }) ([9/10]) (by decide)

/-- C4. When PlateRecognizer.process succeeds, the confidence it returns
is exactly the detector's confidence of the first detected box, passed
through unchanged (as the one-element list stored by Box.__init__, never
the OCR sentinel), and the numeric confidence serialized in a
plateFound-true HTTP response is that detector value. -/
theorem detector_confidence_passthrough (env : YoloEnv)
    (ocrRun : Image → Except PyExc PyText) (p : String) (img : Image)
    (text : PyText) (cf : PyConf) (rs : List RawDet) (b : Box) (bs : List Box)
    (hinf : env.infer p img = Except.ok rs)
    (hdet : detect_plate rs = b :: bs)
    (hp : process env ocrRun p (some img) = ProcResult.ok text cf) :
    cf = PyConf.list b.conf ∧
    (∀ r, recognize env ocrRun p (some (some img)) = HttpOutcome.response r →
      r.plateFound = some true → r.confidence = some b.conf.headI) := by
  obtain ⟨h0, crop, cfl, hd, hcf, he⟩ := process_ok_inv env ocrRun p img text cf hp
  obtain ⟨rs2, b2, bs2, hinf2, hdet2, hcfl, _⟩ :=
    detect_plate_yolo_some_inv env img p YOLO_EXPAND_RATIO YOLO_OUTPUT_SIZE crop cfl hd
  rw [hinf] at hinf2
  injection hinf2 with hrs
  subst hrs
  rw [hdet] at hdet2
  injection hdet2 with hb hbs
  subst hb
  subst hcfl
  refine ⟨hcf, ?_⟩
  intro r hr hpf
  obtain ⟨k, hk⟩ := detect_plate_cons_conf rs b bs hdet
  rw [hcf, hk] at hp
  simp only [recognize, hp, pyIndex0] at hr
  rw [hk]
  split_ifs at hr with h1 h2 h3 h4 <;> injection hr with hr2 <;> subst hr2
  · simp [respNoPlate] at hpf
  · simp [respNoPlate] at hpf
  · simp [respNoPlate] at hpf
  · simp [respNoPlate] at hpf
  · simp [respFound, List.headI]

/-- Witness for C4: with detector confidence 0.9 the pipeline returns the
list-wrapped 0.9 and the success response serializes 0.9. -/
theorem detector_confidence_passthrough_w :
    PyConf.list [(9 : ℚ)/10] = PyConf.list boxOne.conf ∧
    (respFound ("AB12") (9/10)).confidence = some boxOne.conf.headI := by
  have H := detector_confidence_passthrough envOne ocrAB ("best.pt") img10
    (PyText.str ("AB12")) (PyConf.list [9/10]) [rawOne] boxOne []
    rfl (by decide) (by decide)
  exact ⟨H.1, H.2 (respFound ("AB12") (9/10)) (by decide) (by decide)⟩

/-- C10. If the pipeline hands the handler a text whose normalized form is
empty, or one of the sentinel shapes (the string "No text detected.", the
string "________", or a list joining to "________"), the handler answers
200 with plateFound false, a response that carries neither licenseNumber
nor confidence; and every plateFound-true response carries a non-empty
licenseNumber. -/
theorem recognize_absence_contract :
    (∀ env ocrRun p img text cf,
      process env ocrRun p (some img) = ProcResult.ok text cf →
      (_normalize_text text = "" ∨ strSentinel text = true ∨ joinedSentinel text = true) →
      recognize env ocrRun p (some (some img)) = HttpOutcome.response respNoPlate) ∧
    (∀ env ocrRun p u r, recognize env ocrRun p u = HttpOutcome.response r →
      r.plateFound = some true → ∃ s, r.licenseNumber = some s ∧ s ≠ "") ∧
    respNoPlate.status = 200 ∧ respNoPlate.success = true ∧
    respNoPlate.plateFound = some false ∧ respNoPlate.licenseNumber = none ∧
    respNoPlate.confidence = none := by
  refine ⟨?_, ?_, rfl, rfl, rfl, rfl, rfl⟩
  · intro env ocrRun p img text cf hp hsel
    obtain ⟨h0, crop, cfl, hd, hcf, he⟩ := process_ok_inv env ocrRun p img text cf hp
    obtain ⟨rs2, b2, bs2, hinf2, hdet2, hcfl, _⟩ :=
      detect_plate_yolo_some_inv env img p YOLO_EXPAND_RATIO YOLO_OUTPUT_SIZE crop cfl hd
    obtain ⟨k, hk⟩ := detect_plate_cons_conf rs2 b2 bs2 hdet2
    subst hcfl
    rw [hcf, hk] at hp
    simp only [recognize, hp, pyIndex0]
    rcases hsel with hn | hs | hj <;> split_ifs <;> rfl
  · intro env ocrRun p u r hr hpf
    rcases u with _ | u
    · simp only [recognize] at hr
      injection hr with hr2
      subst hr2
      simp [resp400] at hpf
    rcases u with _ | img
    · simp only [recognize] at hr
      injection hr with hr2
      subst hr2
      simp [resp400] at hpf
    simp only [recognize] at hr
    split at hr
    · exact HttpOutcome.noConfusion hr
    · injection hr with hr2
      subst hr2
      simp [resp500] at hpf
    · injection hr with hr2
      subst hr2
      simp [resp500] at hpf
    · rename_i text conf heqp
      split at hr
      · injection hr with hr2
        subst hr2
        simp [resp500] at hpf
      · split_ifs at hr with h1 h2 h3 h4 <;> injection hr with hr2 <;> subst hr2
        · simp [respNoPlate] at hpf
        · simp [respNoPlate] at hpf
        · simp [respNoPlate] at hpf
        · simp [respNoPlate] at hpf
        · exact ⟨_normalize_text text, rfl, h4⟩

/-- Witness for C10: the underscore sentinel yields the plateFound-false
response, and a successful recognition carries the non-empty normalized
license number. -/
theorem recognize_absence_contract_w :
    recognize envOne ocrUnd ("best.pt") (some (some img10)) = HttpOutcome.response respNoPlate ∧
    (∃ s, (respFound ("AB12") (9/10)).licenseNumber = some s ∧ s ≠ "") :=
  ⟨recognize_absence_contract.1 envOne ocrUnd ("best.pt") img10
      (PyText.str ("________")) (PyConf.list [9/10]) (by decide)
      (Or.inr (Or.inl (by decide))),
    recognize_absence_contract.2.1 envOne ocrAB ("best.pt") (some (some img10))
      (respFound ("AB12") (9/10)) (by decide) (by decide)⟩

end PlateRec
